import Mathlib

/-!
Verification of the easymcp frontend data-access layer.

This file gives a shallow embedding, in Lean, of the client-side
data-access and synchronization layer of the easymcp frontend:

* the `ApiClient` transport client of `src/frontend/src/lib/design-system.ts`
  (credential setters, error classification `parseErrorResponse`, and the
  retrying `request` method);
* the authentication boot transition of `src/frontend/src/hooks/use-auth.ts`
  (`authReducer` and the boot `useEffect` of `AuthProvider`);
* the `enabled` gatekeeping of the system query hooks (`useSystemQuery`,
  `useSystemMetrics`, ...);
* the optimistic-update hook `useOptimisticUpdate` (cache snapshot,
  optimistic write, rollback on error);
* the per-item status poller `useStatusPoller` (`startPolling`,
  `stopPolling`, `stopAllPolling`).

JavaScript `string | null` values are embedded as `Option String`, with
JavaScript truthiness made explicit (`null` and the empty string are falsy).
Asynchronous network behaviour is embedded by passing an explicit oracle
that yields the outcome of the i-th fetch attempt, and the observable
behaviour of a request (its result, the number of fetches performed, the
delays inserted and the redirects triggered) is collected in a trace.
Timer APIs (`setInterval`, `setTimeout`, `clearInterval`, `clearTimeout`)
are embedded as allocation and cancellation of fresh numeric handles.
-/

namespace EasyMCP

/-- JavaScript truthiness of a `string | null` value: `null` and the empty
string are falsy, every other string is truthy. -/
def jsTruthy : Option String → Bool
  | some s => !(s == "")
  | none => false

/-! ## Transport client: error body and response (design-system.ts) -/

/-- The `ApiError` interface of design-system.ts: the structured fields of a
JSON error body. A missing field is `none`. -/
structure ApiError where
  detail : Option String
  message : Option String
  code : Option String
deriving Repr, DecidableEq

/-- An HTTP response as observed by `ApiClient.request`.  `json` is the
result of `response.json()`: `none` means the body does not parse as JSON
(the promise rejects); for a parsed body the `ApiError` fields are the
structured error fields (irrelevant for 2xx responses). -/
structure HttpResponse where
  status : Nat
  statusText : String
  json : Option ApiError
deriving Repr, DecidableEq

/-- `Response.ok`: status in the range 200-299. -/
def respOk (r : HttpResponse) : Bool :=
  decide (200 ≤ r.status) && decide (r.status < 300)

/-- `ApiClient.parseErrorResponse`, translated branch for branch.  The first
arm is the `try` branch (the body parsed as JSON), the second the `catch`
branch (it did not).  Note that the canned 401/403/500 messages are checked
before the structured `detail`/`message`/`code` fields. -/
def parseErrorResponse (r : HttpResponse) : String :=
  match r.json with
  | some errorData =>
    if r.status == 401 then
      "Authentication failed. Please log in again."
    else if r.status == 403 then
      "Access denied. You don\x27t have permission to perform this action."
    else if r.status == 500 then
      "Server error. Please try again later or contact support."
    else if jsTruthy errorData.detail then
      errorData.detail.getD ""
    else if jsTruthy errorData.message then
      errorData.message.getD ""
    else if jsTruthy errorData.code then
      "Error " ++ errorData.code.getD "" ++ ": " ++ r.statusText
    else
      "API request failed: " ++ r.statusText ++ " (" ++ toString r.status ++ ")"
  | none =>
    if r.status == 401 then
      "Authentication failed. Please log in again."
    else if r.status == 403 then
      "Access denied. You don\x27t have permission to perform this action."
    else if r.status == 500 then
      "Server error. Please try again later."
    else
      "API request failed: " ++ r.statusText ++ " (" ++ toString r.status ++ ")"

/-! ## Transport client: credentials -/

/-- The two credential fields of `ApiClient` (`authToken` and `apiKey`),
both initialised to `null`. -/
structure Creds where
  authToken : Option String
  apiKey : Option String
deriving Repr, DecidableEq

/-- The initial credential state of a freshly constructed `ApiClient`. -/
def initCreds : Creds := { authToken := none, apiKey := none }

/-- `ApiClient.setAuthToken`: store the token; if the token is truthy,
clear the API key. -/
def setAuthToken (c : Creds) (token : Option String) : Creds :=
  let c1 : Creds := { c with authToken := token }
  if jsTruthy token then { c1 with apiKey := none } else c1

/-- `ApiClient.setApiKey`: store the key; if the key is truthy, clear the
auth token. -/
def setApiKey (c : Creds) (key : Option String) : Creds :=
  let c1 : Creds := { c with apiKey := key }
  if jsTruthy key then { c1 with authToken := none } else c1

/-- One call to a credential setter. -/
inductive CredOp
  | setTok (t : Option String)
  | setKey (k : Option String)

/-- Apply one credential setter call. -/
def credStep (c : Creds) : CredOp → Creds
  | .setTok t => setAuthToken c t
  | .setKey k => setApiKey c k

/-- Run a sequence of credential setter calls from the initial state. -/
def runCreds (ops : List CredOp) : Creds := ops.foldl credStep initCreds

/-- Header construction of `ApiClient.request`: JSON content type, caller
headers, then exactly one credential header (the API key wins if truthy,
else a bearer token if truthy, else none). -/
def buildHeaders (c : Creds) (callerHeaders : List (String × String)) :
    List (String × String) :=
  let base := [("Content-Type", "application/json")] ++ callerHeaders
  if jsTruthy c.apiKey then
    base ++ [("x-api-key", c.apiKey.getD "")]
  else if jsTruthy c.authToken then
    base ++ [("Authorization", "Bearer " ++ c.authToken.getD "")]
  else base

/-! ## Transport client: retrying request -/

/-- The `RetryConfig` of design-system.ts. -/
structure RetryConfig where
  maxRetries : Nat
  retryDelay : Nat
  retryStatuses : List Nat
deriving Repr, DecidableEq

/-- The default retry configuration of the `ApiClient` constructor. -/
def defaultRetryConfig : RetryConfig :=
  { maxRetries := 3, retryDelay := 1000, retryStatuses := [408, 429, 500, 502, 503, 504] }

/-- Outcome of one `fetch` call: the promise rejects (a network failure,
always an `Error` instance), or a response arrives. -/
inductive FetchOutcome
  | networkError
  | response (r : HttpResponse)

/-- The value produced by `request`: a parsed JSON result (2xx), the `null`
result of a 204, or a thrown `Error` carrying a message.  Successful
outcomes record on which attempt they were produced. -/
inductive ReqOutcome
  | ok (attempt : Nat)
  | okNull (attempt : Nat)
  | error (msg : String)
deriving Repr, DecidableEq

/-- The observable trace of one logical `request`: its outcome, the number
of `fetch` calls performed, the delays inserted (in milliseconds, in
order), and the number of login redirects triggered. -/
structure ReqTrace where
  result : ReqOutcome
  fetches : Nat
  delays : List Nat
  redirects : Nat
deriving Repr, DecidableEq

/-- Prefix a trace with one more (earlier) fetch attempt that inserted the
given delay and triggered the given number of redirects before recursing. -/
def withRetryStep (delayMs redir : Nat) (rest : ReqTrace) : ReqTrace :=
  { result := rest.result, fetches := rest.fetches + 1,
    delays := delayMs :: rest.delays, redirects := redir + rest.redirects }

/-- The non-idempotent method check of `ApiClient.request`
(`options.method || "GET"` is tested against POST/PUT/PATCH/DELETE). -/
def isNonIdempotent (method : Option String) : Bool :=
  ["POST", "PUT", "PATCH", "DELETE"].contains (method.getD "GET")

/-- The `shouldRetryOnServerError` flag of `ApiClient.request`:
`!isNonIdempotent || endpoint !== "/api/auth/api-keys"`. -/
def shouldRetryOnServerError (endpoint : String) (method : Option String) : Bool :=
  !isNonIdempotent method || !(endpoint == "/api/auth/api-keys")

/-- Message of a rejected fetch (the thrown network `Error`); its exact
text is irrelevant to the properties below. -/
def networkFailureMessage : String := "Failed to fetch"

/-- Message of a 2xx body that fails to parse as JSON; its exact text is
irrelevant to the properties below. -/
def jsonParseFailureMessage : String := "Unexpected end of JSON input"

/-- `ApiClient.request`, translated onto an explicit fetch oracle
(`oracle i` is the outcome of the fetch performed with `retryCount = i`).

Control flow notes, matching the source:
* a failed response whose `shouldRetry` test passes delays
  `retryDelay * (retryCount + 1)` and recurses inside the `try` block;
* a failed response whose `shouldRetry` test fails first performs the 401
  redirect check and then throws the classified `Error`; but that throw
  happens inside the `try` block, so the generic `catch` block catches it
  and, because the thrown value is an `Error` instance, delays the same
  `retryDelay * (retryCount + 1)` and recurses whenever
  `retryCount < maxRetries`.  Hence both branches recurse with the same
  delay (the only observable difference is the redirect check, performed
  only on the non-`shouldRetry` branch, hence the conditional redirect
  count below), and a final error is only surfaced once `retryCount` has
  reached `maxRetries`;
* a 2xx response whose body fails to parse throws inside `try` and is
  likewise retried by the `catch` block;
* a rejected fetch is an `Error` instance and is retried by the `catch`
  block unconditionally up to `maxRetries`;
* the remaining `catch` arm (a thrown non-`Error` value) is unreachable in
  this embedding, since every thrown value above is an `Error`. -/
def requestAux (cfg : RetryConfig) (endpoint : String) (method : Option String)
    (hasWindow onLoginPage : Bool) (oracle : Nat → FetchOutcome)
    (retryCount : Nat) : ReqTrace :=
  match oracle retryCount with
  | .networkError =>
    if _h : retryCount < cfg.maxRetries then
      withRetryStep (cfg.retryDelay * (retryCount + 1)) 0
        (requestAux cfg endpoint method hasWindow onLoginPage oracle (retryCount + 1))
    else
      { result := .error networkFailureMessage, fetches := 1, delays := [], redirects := 0 }
  | .response r =>
    if respOk r then
      if r.status == 204 then
        { result := .okNull retryCount, fetches := 1, delays := [], redirects := 0 }
      else
        match r.json with
        | some _ =>
          { result := .ok retryCount, fetches := 1, delays := [], redirects := 0 }
        | none =>
          if _h : retryCount < cfg.maxRetries then
            withRetryStep (cfg.retryDelay * (retryCount + 1)) 0
              (requestAux cfg endpoint method hasWindow onLoginPage oracle (retryCount + 1))
          else
            { result := .error jsonParseFailureMessage, fetches := 1, delays := [], redirects := 0 }
    else
      let errorMessage := parseErrorResponse r
      let retryEligible :=
        cfg.retryStatuses.contains r.status &&
          (!(r.status == 500) || shouldRetryOnServerError endpoint method)
      let redirHere : Nat :=
        if r.status == 401 && hasWindow && !onLoginPage then 1 else 0
      if _h : retryCount < cfg.maxRetries then
        withRetryStep (cfg.retryDelay * (retryCount + 1))
          (if retryEligible then 0 else redirHere)
          (requestAux cfg endpoint method hasWindow onLoginPage oracle (retryCount + 1))
      else
        { result := .error errorMessage, fetches := 1, delays := [], redirects := redirHere }
termination_by cfg.maxRetries - retryCount
decreasing_by all_goals omega

/-- `ApiClient.request` entered with `retryCount = 0`. -/
def request (cfg : RetryConfig) (endpoint : String) (method : Option String)
    (hasWindow onLoginPage : Bool) (oracle : Nat → FetchOutcome) : ReqTrace :=
  requestAux cfg endpoint method hasWindow onLoginPage oracle 0

/-- Helper: when every fetch attempt yields a failed (non-2xx, non-401)
response, `requestAux` retries with linearly growing delays until
`retryCount` reaches `maxRetries` and then surfaces the classified message
of the last response.  This holds whether or not the statuses are in the
retryable set, because a classified error thrown for a non-retried status
is re-caught by the generic catch block and retried there. -/
theorem requestAux_fail (cfg : RetryConfig) (endpoint : String)
    (method : Option String) (hasWindow onLoginPage : Bool)
    (r : Nat → HttpResponse)
    (hok : ∀ i, respOk (r i) = false) (h401 : ∀ i, (r i).status ≠ 401) :
    ∀ n rc, rc + n = cfg.maxRetries →
      requestAux cfg endpoint method hasWindow onLoginPage
          (fun i => FetchOutcome.response (r i)) rc =
        { result := .error (parseErrorResponse (r cfg.maxRetries)),
          fetches := n + 1,
          delays := (List.range' (rc + 1) n).map (fun i => cfg.retryDelay * i),
          redirects := 0 } := by
  intro n
  induction n with
  | zero =>
    intro rc hrc
    have hrceq : rc = cfg.maxRetries := by omega
    subst hrceq
    rw [requestAux]
    have hlt : ¬ cfg.maxRetries < cfg.maxRetries := by omega
    have hbeq : ((r cfg.maxRetries).status == 401) = false := by
      simpa using h401 cfg.maxRetries
    simp [hok cfg.maxRetries, hlt, hbeq]
  | succ n ih =>
    intro rc hrc
    have hlt : rc < cfg.maxRetries := by omega
    rw [requestAux]
    have hrec := ih (rc + 1) (by omega)
    have hbeq : ((r rc).status == 401) = false := by
      simpa using h401 rc
    have hrange : List.range' (rc + 1) (n + 1) = (rc + 1) :: List.range' (rc + 2) n := by
      rw [List.range'_succ]
    simp only [hok rc, Bool.false_eq_true, if_false, hlt, dif_pos]
    rw [hrec]
    simp [withRetryStep, hrange, hbeq]

/-- The response used in concrete evaluations of a persistent 500. -/
def resp500 : HttpResponse :=
  { status := 500, statusText := "Internal Server Error",
    json := some { detail := none, message := none, code := none } }

/-- The response used in concrete evaluations of a persistent 404. -/
def resp404 : HttpResponse :=
  { status := 404, statusText := "Not Found",
    json := some { detail := none, message := none, code := none } }

/-- C1: evaluation of the code at the failing input.  With the default
retry configuration and a server that answers 500 on every attempt, a
non-idempotent POST to a path other than the allow-listed one
("/api/auth/login") is retried three times rather than surfaced on the
first 500 — the `shouldRetryOnServerError` guard
(`endpoint !== "/api/auth/api-keys"`) makes `shouldRetry` true for it —
and even a POST to "/api/auth/api-keys" itself, for which `shouldRetry` is
false, is retried three times because the thrown classified `Error` is
re-caught by the generic catch block.  Both traces show 4 fetches and
delays 1000, 2000, 3000 ms. -/
theorem c1_request_retries_nonidempotent_500 :
    request defaultRetryConfig "/api/auth/login" (some "POST") true false
        (fun _ => FetchOutcome.response resp500) =
      { result := .error "Server error. Please try again later or contact support.",
        fetches := 4, delays := [1000, 2000, 3000], redirects := 0 } ∧
    request defaultRetryConfig "/api/auth/api-keys" (some "POST") true false
        (fun _ => FetchOutcome.response resp500) =
      { result := .error "Server error. Please try again later or contact support.",
        fetches := 4, delays := [1000, 2000, 3000], redirects := 0 } := by
  constructor
  · have h := requestAux_fail defaultRetryConfig "/api/auth/login" (some "POST")
      true false (fun _ => resp500) (fun _ => (by decide : respOk resp500 = false))
      (fun _ => (by decide : resp500.status ≠ 401)) 3 0 rfl
    rw [request, h]
    decide
  · have h := requestAux_fail defaultRetryConfig "/api/auth/api-keys" (some "POST")
      true false (fun _ => resp500) (fun _ => (by decide : respOk resp500 = false))
      (fun _ => (by decide : resp500.status ≠ 401)) 3 0 rfl
    rw [request, h]
    decide

/-- C2: evaluation of the code at the failing input.  A GET whose response
status 404 is not in the retryable set is nevertheless retried three times
(4 fetches, delays 1000, 2000, 3000 ms) before the classified message is
surfaced, because the classified `Error` thrown inside the `try` block is
re-caught by the generic catch block, which retries any `Error` while
`retryCount < maxRetries`. -/
theorem c2_request_retries_unretryable_status :
    request defaultRetryConfig "/api/servers/" none true false
        (fun _ => FetchOutcome.response resp404) =
      { result := .error "API request failed: Not Found (404)",
        fetches := 4, delays := [1000, 2000, 3000], redirects := 0 } := by
  have h := requestAux_fail defaultRetryConfig "/api/servers/" none
    true false (fun _ => resp404) (fun _ => (by decide : respOk resp404 = false))
    (fun _ => (by decide : resp404.status ≠ 401)) 3 0 rfl
  rw [request, h]
  decide

/-- C3: with the default configuration, a request whose every attempt is
answered with 408, 429, 502, 503 or 504 is retried until the retry count
reaches `maxRetries` (3), the delay inserted before retry attempt n is
`retryDelay * n` (1000, 2000, 3000 ms — linear in the attempt number), and
after the last allowed attempt fails the classified message of the last
response is surfaced to the caller. -/
theorem c3_retryable_retried_with_linear_backoff
    (endpoint : String) (method : Option String) (hasWindow onLoginPage : Bool)
    (r : Nat → HttpResponse)
    (hst : ∀ i, (r i).status ∈ [408, 429, 502, 503, 504]) :
    request defaultRetryConfig endpoint method hasWindow onLoginPage
        (fun i => FetchOutcome.response (r i)) =
      { result := .error (parseErrorResponse (r 3)),
        fetches := 4, delays := [1000, 2000, 3000], redirects := 0 } := by
  have hst' : ∀ i, (r i).status = 408 ∨ (r i).status = 429 ∨ (r i).status = 502 ∨
      (r i).status = 503 ∨ (r i).status = 504 := by
    intro i
    have h := hst i
    simpa using h
  have hok : ∀ i, respOk (r i) = false := by
    intro i
    rcases hst' i with h | h | h | h | h
    all_goals simp [respOk, h]
  have h401 : ∀ i, (r i).status ≠ 401 := by
    intro i
    rcases hst' i with h | h | h | h | h
    all_goals omega
  have h := requestAux_fail defaultRetryConfig endpoint method
    hasWindow onLoginPage r hok h401 3 0 rfl
  rw [request, h]
  have hd : (List.range' (0 + 1) 3).map (fun i => defaultRetryConfig.retryDelay * i) =
      [1000, 2000, 3000] := by decide
  rw [hd]
  norm_num
  rfl

/-- Witness for C3 at a concrete input: a request answered 503 on every
attempt, with default configuration. -/
theorem c3_retryable_retried_with_linear_backoff_witness :
    request defaultRetryConfig "/api/system/status" none true false
        (fun _ => FetchOutcome.response
          { status := 503, statusText := "Service Unavailable", json := none }) =
      { result := .error "API request failed: Service Unavailable (503)",
        fetches := 4, delays := [1000, 2000, 3000], redirects := 0 } :=
  c3_retryable_retried_with_linear_backoff "/api/system/status" none true false
    (fun _ => { status := 503, statusText := "Service Unavailable", json := none })
    (fun _ => (by decide : (503 : Nat) ∈ [408, 429, 502, 503, 504]))

/-! ## C5: credential exclusivity -/

/-- Helper: after any single setter call, at most one credential is
truthy (whatever the state before the call was). -/
theorem credStep_preserves (c : Creds) (op : CredOp) :
    (jsTruthy (credStep c op).authToken && jsTruthy (credStep c op).apiKey) = false := by
  cases op with
  | setTok t =>
    simp only [credStep, setAuthToken]
    cases h : jsTruthy t <;> simp_all [jsTruthy]
  | setKey k =>
    simp only [credStep, setApiKey]
    cases h : jsTruthy k <;> simp_all [jsTruthy]

/-- Helper: the invariant holds after any sequence of setter calls. -/
theorem runCreds_invariant (ops : List CredOp) :
    (jsTruthy (runCreds ops).authToken && jsTruthy (runCreds ops).apiKey) = false := by
  rw [runCreds]
  have h : ∀ (l : List CredOp) (c : Creds),
      (jsTruthy c.authToken && jsTruthy c.apiKey) = false →
      (jsTruthy (l.foldl credStep c).authToken && jsTruthy (l.foldl credStep c).apiKey)
        = false := by
    intro l
    induction l with
    | nil => intro c hc; simpa using hc
    | cons op l ih =>
      intro c hc
      exact ih (credStep c op) (credStep_preserves c op)
  exact h ops initCreds (by rfl)

/-- The call sequence refuting C5 as stated: arm a bearer token, then set
the API key to the empty string (non-null but falsy). -/
def credOpsCE : List CredOp := [CredOp.setTok (some "tok"), CredOp.setKey (some "")]

/-- C5 counterexample: after `setAuthToken("tok"); setApiKey("")` both
`authToken` and `apiKey` are non-null at the same time, because `setApiKey`
only clears the token when the key is truthy and the empty string is falsy
in JavaScript.  This refutes the claim that setting a non-null credential
clears the other and that both are never simultaneously non-null. -/
theorem c5_both_non_null_counterexample :
    (runCreds credOpsCE).authToken = some "tok" ∧
    (runCreds credOpsCE).apiKey = some "" ∧
    ((runCreds credOpsCE).authToken.isSome && (runCreds credOpsCE).apiKey.isSome) = true := by
  decide

/-- C5 amended: setting a non-empty credential clears the other entirely,
and after any sequence of setter calls at most one of the two credentials
is truthy (a non-empty string); an empty-string credential, however, is
stored without clearing the other, so both fields can be non-null when one
of them is the empty string. -/
theorem c5_at_most_one_truthy_credential (ops : List CredOp) (c : Creds) (t k : String) :
    (jsTruthy (runCreds ops).authToken && jsTruthy (runCreds ops).apiKey) = false ∧
    (setAuthToken c (some t)).apiKey = (if t = "" then c.apiKey else none) ∧
    (setApiKey c (some k)).authToken = (if k = "" then c.authToken else none) := by
  refine ⟨runCreds_invariant ops, ?_, ?_⟩
  · simp only [setAuthToken, jsTruthy]
    by_cases h : t = "" <;> simp [h]
  · simp only [setApiKey, jsTruthy]
    by_cases h : k = "" <;> simp [h]

/-! ## C6: error-message classification order -/

/-- The 401 response with a structured `detail` field used to refute C6. -/
def resp401detail : HttpResponse :=
  { status := 401, statusText := "Unauthorized",
    json := some { detail := some "Session token has expired", message := none, code := none } }

/-- C6 counterexample: a 401 response whose body carries a `detail` field
yields the canned authentication message, not the detail text — the canned
401/403/500 messages are checked before the structured fields. -/
theorem c6_canned_message_beats_detail :
    parseErrorResponse resp401detail = "Authentication failed. Please log in again." ∧
    resp401detail.json = some
      { detail := some "Session token has expired", message := none, code := none } ∧
    parseErrorResponse resp401detail ≠ "Session token has expired" := by
  refine ⟨rfl, rfl, ?_⟩
  decide

/-- C6 amended: on a failed response whose body parses as JSON the
classifier inspects, in this order: a status-specific canned message for
401/403/500 (which takes precedence over every structured field), then the
structured `detail` field, then the structured `message` field, then a
message derived from the structured `code` field, and only otherwise the
raw status line. -/
theorem c6_classification_order (st : Nat) (txt : String) (e : ApiError) :
    (st = 401 → parseErrorResponse { status := st, statusText := txt, json := some e } =
      "Authentication failed. Please log in again.") ∧
    (st = 403 → parseErrorResponse { status := st, statusText := txt, json := some e } =
      "Access denied. You don\x27t have permission to perform this action.") ∧
    (st = 500 → parseErrorResponse { status := st, statusText := txt, json := some e } =
      "Server error. Please try again later or contact support.") ∧
    (st ≠ 401 → st ≠ 403 → st ≠ 500 → jsTruthy e.detail = true →
      parseErrorResponse { status := st, statusText := txt, json := some e } =
        e.detail.getD "") ∧
    (st ≠ 401 → st ≠ 403 → st ≠ 500 → jsTruthy e.detail = false →
      jsTruthy e.message = true →
      parseErrorResponse { status := st, statusText := txt, json := some e } =
        e.message.getD "") ∧
    (st ≠ 401 → st ≠ 403 → st ≠ 500 → jsTruthy e.detail = false →
      jsTruthy e.message = false → jsTruthy e.code = true →
      parseErrorResponse { status := st, statusText := txt, json := some e } =
        "Error " ++ e.code.getD "" ++ ": " ++ txt) ∧
    (st ≠ 401 → st ≠ 403 → st ≠ 500 → jsTruthy e.detail = false →
      jsTruthy e.message = false → jsTruthy e.code = false →
      parseErrorResponse { status := st, statusText := txt, json := some e } =
        "API request failed: " ++ txt ++ " (" ++ toString st ++ ")") := by
  refine ⟨?_, ?_, ?_, ?_, ?_, ?_, ?_⟩
  · intro h; subst h; simp [parseErrorResponse]
  · intro h; subst h; simp [parseErrorResponse]
  · intro h; subst h; simp [parseErrorResponse]
  · intro h1 h2 h3 hd
    simp [parseErrorResponse, h1, h2, h3, hd]
  · intro h1 h2 h3 hd hm
    simp [parseErrorResponse, h1, h2, h3, hd, hm]
  · intro h1 h2 h3 hd hm hc
    simp [parseErrorResponse, h1, h2, h3, hd, hm, hc]
  · intro h1 h2 h3 hd hm hc
    simp [parseErrorResponse, h1, h2, h3, hd, hm, hc]

/-- Witness for C6 amended: a 404 whose body carries a `detail` field
yields the detail text. -/
theorem c6_classification_order_witness :
    parseErrorResponse
      { status := 404, statusText := "Not Found",
        json := some { detail := some "Server not found", message := none, code := none } } =
      "Server not found" :=
  (c6_classification_order 404 "Not Found"
    { detail := some "Server not found", message := none, code := none }).2.2.2.1
    (by decide) (by decide) (by decide) (by decide)

/-! ## Authentication state machine (use-auth.ts) -/

/-- The user identity returned by the login/identity endpoints; only the
fields relevant to the session state are modelled. -/
structure UserResponse where
  username : String
deriving Repr, DecidableEq

/-- The `AuthState` of use-auth.ts. -/
structure AuthState where
  user : Option UserResponse
  isAuthenticated : Bool
  isLoading : Bool
deriving Repr, DecidableEq

/-- The `AuthAction` union of use-auth.ts. -/
inductive AuthAction
  | setUser (payload : Option UserResponse)
  | setLoading (payload : Bool)
  | logout

/-- The `authReducer` of use-auth.ts (`!!action.payload` on an object is
`Option.isSome`). -/
def authReducer (state : AuthState) (action : AuthAction) : AuthState :=
  match action with
  | .setUser payload =>
    { state with user := payload, isAuthenticated := payload.isSome, isLoading := false }
  | .setLoading payload => { state with isLoading := payload }
  | .logout => { user := none, isAuthenticated := false, isLoading := false }

/-- The `initialState` of use-auth.ts. -/
def initialAuthState : AuthState :=
  { user := none, isAuthenticated := false, isLoading := true }

/-- The observable outcome of the boot `useEffect` of `AuthProvider`:
the session state it dispatches to, the number of network calls issued,
the persisted token left in storage, and the token armed on the
`ApiClient`. -/
structure BootTrace where
  state : AuthState
  networkCalls : Nat
  storedToken : Option String
  armedToken : Option String
deriving Repr, DecidableEq

/-- The boot `useEffect` of `AuthProvider`, translated branch for branch.
`stored` is the value read by `getStoredToken()`, and `identity` is the
outcome of `api.getCurrentUser()` — which is consulted only when a truthy
token is found. -/
def bootAuth (stored : Option String) (identity : Except Unit UserResponse) : BootTrace :=
  if jsTruthy stored then
    match identity with
    | .ok user =>
      { state := authReducer initialAuthState (.setUser (some user)),
        networkCalls := 1, storedToken := stored, armedToken := stored }
    | .error _ =>
      { state := authReducer initialAuthState .logout,
        networkCalls := 1, storedToken := none, armedToken := none }
  else
    { state := authReducer initialAuthState (.setLoading false),
      networkCalls := 0, storedToken := stored, armedToken := none }

/-- C7: booting with no persisted token issues no network call (whatever
the identity endpoint would have answered) and leaves the session at
`user = null`, `authenticated = false`, `loading = false`. -/
theorem c7_boot_without_token_no_network (identity : Except Unit UserResponse) :
    bootAuth none identity =
      { state := { user := none, isAuthenticated := false, isLoading := false },
        networkCalls := 0, storedToken := none, armedToken := none } := by
  rfl

/-! ## Query orchestrator gatekeeping (useSystemQuery and friends) -/

/-- The `enabled` value that `useSystemQuery` hands to the query library:
the options object is built as
`{ ..., enabled: (options.enabled ?? true) && isAuthenticated, ...options }`,
so a caller-supplied `enabled` property overrides the computed one (the
spread comes last). `none` models an absent property. -/
def useSystemQueryEnabled (optionsEnabled : Option Bool) (isAuthenticated : Bool) : Bool :=
  let computed := optionsEnabled.getD true && isAuthenticated
  match optionsEnabled with
  | some b => b
  | none => computed

/-- `useSystemStatus` forwards its caller options unchanged. -/
def useSystemStatusEnabled (callerEnabled : Option Bool) (isAuthenticated : Bool) : Bool :=
  useSystemQueryEnabled callerEnabled isAuthenticated

/-- `useSystemHealth` forwards its caller options unchanged. -/
def useSystemHealthEnabled (callerEnabled : Option Bool) (isAuthenticated : Bool) : Bool :=
  useSystemQueryEnabled callerEnabled isAuthenticated

/-- `useMcpStatistics` adds polling options but no `enabled` property. -/
def useMcpStatisticsEnabled (callerEnabled : Option Bool) (isAuthenticated : Bool) : Bool :=
  useSystemQueryEnabled callerEnabled isAuthenticated

/-- `useSystemMetrics` passes `{ enabled: true, ...options }` — metrics do
not require auth; a caller-supplied `enabled` still wins over the default. -/
def useSystemMetricsEnabled (callerEnabled : Option Bool) (isAuthenticated : Bool) : Bool :=
  useSystemQueryEnabled
    (match callerEnabled with
     | some b => some b
     | none => some true)
    isAuthenticated

/-- Modelled from the spec: the fetch gating of the query library (an
external dependency, not part of this repository) — a read issues its
fetch exactly when its `enabled` flag is true. -/
def issuesFetch (enabled : Bool) : Bool := enabled

/-- C4: with no caller options, the metrics resource issues its fetch even
while the session is unauthenticated (in particular when
`isAuthenticated = false`), while the status, health and statistics
resources — and any resource going through `useSystemQuery` without a
caller-supplied `enabled` — fetch exactly when the session is
authenticated. -/
theorem c4_metrics_fetch_without_auth (isAuthenticated : Bool) :
    issuesFetch (useSystemMetricsEnabled none isAuthenticated) = true ∧
    issuesFetch (useSystemMetricsEnabled none false) = true ∧
    issuesFetch (useSystemStatusEnabled none isAuthenticated) = isAuthenticated ∧
    issuesFetch (useSystemHealthEnabled none isAuthenticated) = isAuthenticated ∧
    issuesFetch (useMcpStatisticsEnabled none isAuthenticated) = isAuthenticated ∧
    issuesFetch (useSystemQueryEnabled none isAuthenticated) = isAuthenticated := by
  cases isAuthenticated <;> decide

/-! ## Shared query cache and optimistic updates (useOptimisticUpdate) -/

/-- A hierarchical cache key (a `string[]` in the source). -/
abbrev QueryKey := List String

/-- The shared query cache, restricted to what the optimistic-update hook
touches: an association of keys to list values.  An absent key models
`getQueryData` returning `undefined`. -/
def Cache (α : Type) : Type := List (QueryKey × List α)

/-- `queryClient.getQueryData<TData[]>(key)`. -/
def getQueryData {α : Type} (c : Cache α) (k : QueryKey) : Option (List α) :=
  match c.find? (fun e => e.1 == k) with
  | some e => some e.2
  | none => none

/-- `queryClient.setQueryData(key, v)`: the value stored under `k` becomes
`v`; other keys are untouched. -/
def setQueryData {α : Type} (c : Cache α) (k : QueryKey) (v : List α) : Cache α :=
  (k, v) :: c.filter (fun e => !(e.1 == k))

/-- The `OptimisticUpdateConfig` of the source: a key, the optimistic
transform, and an optional rollback transform. -/
structure OptimisticUpdateConfig (α : Type) where
  queryKey : QueryKey
  updateFn : List α → List α
  rollbackFn : Option (List α → List α)

/-- The `onMutate` handler of `useOptimisticUpdate`: snapshot the current
value; if it is truthy (present — in JavaScript every array, including the
empty one, is truthy), write the optimistic transform of it into the cache;
return the snapshot as mutation context.  (`cancelQueries` only affects
in-flight fetches, not cache values.) -/
def optimisticOnMutate {α : Type} (config : OptimisticUpdateConfig α) (c : Cache α) :
    Cache α × Option (List α) :=
  let previousData := getQueryData c config.queryKey
  match previousData with
  | some prev => (setQueryData c config.queryKey (config.updateFn prev), some prev)
  | none => (c, none)

/-- The `onError` handler of `useOptimisticUpdate`: if the context carries
a snapshot and a rollback transform is configured, write the rollback
transform of the snapshot into the cache; otherwise leave the cache
alone. -/
def optimisticOnError {α : Type} (config : OptimisticUpdateConfig α) (c : Cache α)
    (context : Option (List α)) : Cache α :=
  match context, config.rollbackFn with
  | some prev, some rollbackFn => setQueryData c config.queryKey (rollbackFn prev)
  | _, _ => c

/-- The cache after a failed optimistic mutation: `onMutate` runs first and
its returned context is handed to `onError`.  (The settlement-triggered
`invalidateQueries` marks the key stale but does not change its value.) -/
def failedOptimisticMutation {α : Type} (config : OptimisticUpdateConfig α)
    (c : Cache α) : Cache α :=
  let m := optimisticOnMutate config c
  optimisticOnError config m.1 m.2

/-- Helper: reading back the key just written. -/
theorem getQueryData_setQueryData {α : Type} (c : Cache α) (k : QueryKey) (v : List α) :
    getQueryData (setQueryData c k v) k = some v := by
  simp [getQueryData, setQueryData, List.find?]

/-- The config used to refute C8: the rollback transform is not the
identity, so the "restored" value differs from the snapshot. -/
def c8Config : OptimisticUpdateConfig Nat :=
  { queryKey := ["servers", "list"],
    updateFn := fun l => 0 :: l,
    rollbackFn := some (fun _ => [42]) }

/-- The pre-mutation cache used to refute C8: the key holds `[1]`. -/
def c8Cache : Cache Nat := [(["servers", "list"], [1])]

/-- C8 counterexample: with a rollback transform configured, a failed
optimistic mutation sets the key to the rollback transform applied to the
snapshot — here `[42]` — and not back to the pre-mutation snapshot `[1]`. -/
theorem c8_rollback_not_snapshot_counterexample :
    getQueryData c8Cache ["servers", "list"] = some [1] ∧
    getQueryData (failedOptimisticMutation c8Config c8Cache) ["servers", "list"] =
      some [42] ∧
    ([42] : List Nat) ≠ [1] := by
  refine ⟨rfl, rfl, ?_⟩
  decide

/-- C8 amended: if the mutation fails, a rollback transform is configured
and the key held a value when the mutation started, then the cache value
for the key becomes the rollback transform applied to the pre-mutation
snapshot; it equals the snapshot itself exactly when the transform fixes
that snapshot (for example when the rollback transform is the identity). -/
theorem c8_failed_mutation_writes_rollback_of_snapshot {α : Type}
    (config : OptimisticUpdateConfig α) (c : Cache α) (prev : List α)
    (rollbackFn : List α → List α)
    (hrb : config.rollbackFn = some rollbackFn)
    (hprev : getQueryData c config.queryKey = some prev) :
    getQueryData (failedOptimisticMutation config c) config.queryKey =
      some (rollbackFn prev) := by
  simp [failedOptimisticMutation, optimisticOnMutate, optimisticOnError, hprev, hrb,
    getQueryData_setQueryData]

/-- Witness for C8 amended: with the identity rollback transform the
pre-mutation snapshot is restored. -/
theorem c8_failed_mutation_writes_rollback_of_snapshot_witness :
    getQueryData
      (failedOptimisticMutation
        { queryKey := ["servers", "list"], updateFn := fun l => 0 :: l,
          rollbackFn := some (fun l => l) }
        [(["servers", "list"], [1])])
      ["servers", "list"] = some [1] :=
  c8_failed_mutation_writes_rollback_of_snapshot
    { queryKey := ["servers", "list"], updateFn := fun l => 0 :: l,
      rollbackFn := some (fun l => l) }
    [(["servers", "list"], [1])] [1] (fun l => l) rfl rfl

/-- C10: when the cache holds no value for the declared key, `onMutate`
leaves the whole cache unchanged and returns an empty context, and the
subsequent `onError` of a failed mutation performs no rollback write
either — the optimistic transform is applied only when a previous value
exists. -/
theorem c10_no_previous_value_no_write {α : Type}
    (config : OptimisticUpdateConfig α) (c : Cache α)
    (hnone : getQueryData c config.queryKey = none) :
    optimisticOnMutate config c = (c, none) ∧
    failedOptimisticMutation config c = c := by
  constructor
  · simp [optimisticOnMutate, hnone]
  · simp [failedOptimisticMutation, optimisticOnMutate, optimisticOnError, hnone]

/-- Witness for C10: an empty cache, a config with both transforms
present. -/
theorem c10_no_previous_value_no_write_witness :
    optimisticOnMutate c8Config ([] : Cache Nat) = ([], none) ∧
    failedOptimisticMutation c8Config ([] : Cache Nat) = [] :=
  c10_no_previous_value_no_write c8Config ([] : Cache Nat) rfl

/-! ## Per-item status poller (useStatusPoller)

The browser timer API is embedded as allocation of fresh numeric handles:
`setInterval`/`setTimeout` return `nextHandle` and `nextHandle + 1` and add
them to the multiset of live (armed, not yet cleared) timers;
`clearInterval`/`clearTimeout` remove a handle from the live set.  The two
`useRef` maps of the hook are association lists; `Map.set` replaces any
entry with the same key and `Map.delete` removes it. -/

/-- The state of a `useStatusPoller` instance together with the timer
environment. -/
structure PollerState where
  pollIntervals : List (String × Nat)
  timeoutRefs : List (String × Nat)
  live : List Nat
  nextHandle : Nat
deriving Repr, DecidableEq

/-- A freshly mounted hook: empty maps, no timers. -/
def initPoller : PollerState :=
  { pollIntervals := [], timeoutRefs := [], live := [], nextHandle := 0 }

/-- `clearInterval`/`clearTimeout`: the handle stops being live. -/
def clearTimer (live : List Nat) (h : Nat) : List Nat :=
  live.filter (fun x => !(x == h))

/-- `Map.get(k)` on an association list. -/
def lookupKey (m : List (String × Nat)) (k : String) : Option Nat :=
  match m.find? (fun e => e.1 == k) with
  | some e => some e.2
  | none => none

/-- `Map.delete(k)` on an association list. -/
def eraseKey (m : List (String × Nat)) (k : String) : List (String × Nat) :=
  m.filter (fun e => !(e.1 == k))

/-- `stopPolling(identifier)`: clear and deregister the interval timer if
present, then clear and deregister the max-duration timeout if present. -/
def stopPolling (s : PollerState) (identifier : String) : PollerState :=
  let s1 :=
    match lookupKey s.pollIntervals identifier with
    | some h =>
      { s with live := clearTimer s.live h,
               pollIntervals := eraseKey s.pollIntervals identifier }
    | none => s
  match lookupKey s1.timeoutRefs identifier with
  | some h =>
    { s1 with live := clearTimer s1.live h,
              timeoutRefs := eraseKey s1.timeoutRefs identifier }
  | none => s1

/-- `startPolling(identifier)`: first `stopPolling(identifier)`, then arm a
fresh repeating interval and a fresh one-shot max-duration timeout and
register both under the identifier. -/
def startPolling (s : PollerState) (identifier : String) : PollerState :=
  let s1 := stopPolling s identifier
  let intervalHandle := s1.nextHandle
  let timeoutHandle := s1.nextHandle + 1
  { pollIntervals := (identifier, intervalHandle) :: eraseKey s1.pollIntervals identifier,
    timeoutRefs := (identifier, timeoutHandle) :: eraseKey s1.timeoutRefs identifier,
    live := intervalHandle :: timeoutHandle :: s1.live,
    nextHandle := s1.nextHandle + 2 }

/-- `stopAllPolling()`: clear every registered interval, clear every
registered timeout, and empty both maps. -/
def stopAllPolling (s : PollerState) : PollerState :=
  let live1 := s.pollIntervals.foldl (fun acc e => clearTimer acc e.2) s.live
  let live2 := s.timeoutRefs.foldl (fun acc e => clearTimer acc e.2) live1
  { pollIntervals := [], timeoutRefs := [], live := live2, nextHandle := s.nextHandle }

/-- One call on the hook's returned interface. -/
inductive PollOp
  | start (k : String)
  | stop (k : String)
  | stopAll

/-- Apply one call. -/
def pollStep (s : PollerState) : PollOp → PollerState
  | .start k => startPolling s k
  | .stop k => stopPolling s k
  | .stopAll => stopAllPolling s

/-- Run a sequence of calls on a freshly mounted hook. -/
def runPoller (ops : List PollOp) : PollerState := ops.foldl pollStep initPoller

/-- The handles currently registered in either map. -/
def RegisteredHandles (s : PollerState) : List Nat :=
  s.pollIntervals.map Prod.snd ++ s.timeoutRefs.map Prod.snd

/-- No entry of the map carries the key. -/
def KeyFree (m : List (String × Nat)) (k : String) : Prop :=
  ∀ e ∈ m, ¬ e.1 = k

/-- The keys of the map are pairwise distinct. -/
def KeysNodup (m : List (String × Nat)) : Prop :=
  (m.map Prod.fst).Nodup

/-- The poller invariant: every live timer is registered under some key,
and each map has at most one entry per key. -/
def PollerInv (s : PollerState) : Prop :=
  (∀ x ∈ s.live, x ∈ RegisteredHandles s) ∧
  KeysNodup s.pollIntervals ∧ KeysNodup s.timeoutRefs

theorem keyFree_eraseKey (m : List (String × Nat)) (k : String) :
    KeyFree (eraseKey m k) k := by
  intro e he
  rw [eraseKey, List.mem_filter] at he
  simpa using he.2

theorem eraseKey_of_keyFree {m : List (String × Nat)} {k : String}
    (h : KeyFree m k) : eraseKey m k = m := by
  rw [eraseKey, List.filter_eq_self]
  intro e he
  simpa using h e he

theorem keyFree_of_lookup_none {m : List (String × Nat)} {k : String}
    (h : lookupKey m k = none) : KeyFree m k := by
  intro e he
  rw [lookupKey] at h
  cases hf : m.find? (fun e => e.1 == k) with
  | some e' => rw [hf] at h; exact absurd h (by simp)
  | none =>
    have := List.find?_eq_none.mp hf e he
    simpa using this

theorem keysNodup_eraseKey {m : List (String × Nat)} (k : String)
    (h : KeysNodup m) : KeysNodup (eraseKey m k) :=
  List.Nodup.sublist (List.Sublist.map Prod.fst (List.filter_sublist m)) h

theorem lookupKey_eq_of_mem {m : List (String × Nat)} {a : String} {b : Nat}
    (hnd : KeysNodup m) (hmem : (a, b) ∈ m) : lookupKey m a = some b := by
  induction m with
  | nil => cases hmem
  | cons x m ih =>
    rw [KeysNodup, List.map_cons, List.nodup_cons] at hnd
    rcases List.mem_cons.mp hmem with h | h
    · subst h
      simp [lookupKey, List.find?]
    · have hx : ¬ x.1 = a := by
        intro he
        exact hnd.1 (he ▸ List.mem_map_of_mem Prod.fst h)
      have hbeq : (x.1 == a) = false := beq_eq_false_iff_ne.mpr hx
      have := ih hnd.2 h
      rw [lookupKey] at this ⊢
      rw [List.find?]
      simp only [hbeq]
      exact this

theorem mem_clearTimer {live : List Nat} {h x : Nat} :
    x ∈ clearTimer live h ↔ x ∈ live ∧ ¬ x = h := by
  rw [clearTimer, List.mem_filter]
  simp

/-- Characterization of `stopPolling`: both maps lose every entry for the
key, and the live set loses exactly the handles the maps held for the key. -/
theorem stopPolling_char (s : PollerState) (k : String) :
    (stopPolling s k).pollIntervals = eraseKey s.pollIntervals k ∧
    (stopPolling s k).timeoutRefs = eraseKey s.timeoutRefs k ∧
    (stopPolling s k).nextHandle = s.nextHandle ∧
    (∀ x, x ∈ (stopPolling s k).live ↔
      x ∈ s.live ∧ ¬ lookupKey s.pollIntervals k = some x ∧
        ¬ lookupKey s.timeoutRefs k = some x) := by
  rw [stopPolling]
  cases hp : lookupKey s.pollIntervals k with
  | some h1 =>
    cases ht : lookupKey s.timeoutRefs k with
    | some h2 =>
      refine ⟨rfl, rfl, rfl, ?_⟩
      intro x
      simp [mem_clearTimer, hp, ht]
      tauto
    | none =>
      have hfree := keyFree_of_lookup_none ht
      refine ⟨rfl, (eraseKey_of_keyFree hfree).symm, rfl, ?_⟩
      intro x
      simp [mem_clearTimer, hp, ht]
      tauto
  | none =>
    have hfreeP := keyFree_of_lookup_none hp
    cases ht : lookupKey s.timeoutRefs k with
    | some h2 =>
      refine ⟨(eraseKey_of_keyFree hfreeP).symm, rfl, rfl, ?_⟩
      intro x
      simp [mem_clearTimer, hp, ht]
      tauto
    | none =>
      have hfreeT := keyFree_of_lookup_none ht
      refine ⟨(eraseKey_of_keyFree hfreeP).symm, (eraseKey_of_keyFree hfreeT).symm, rfl, ?_⟩
      intro x
      simp [hp, ht]

theorem pollerInv_stopPolling {s : PollerState} (hs : PollerInv s) (k : String) :
    PollerInv (stopPolling s k) := by
  obtain ⟨hlive, hndP, hndT⟩ := hs
  obtain ⟨hP, hT, _, hL⟩ := stopPolling_char s k
  refine ⟨?_, ?_, ?_⟩
  · intro x hx
    obtain ⟨hxs, hnp, hnt⟩ := (hL x).mp hx
    have hreg := hlive x hxs
    rw [RegisteredHandles, List.mem_append] at hreg
    rw [RegisteredHandles, hP, hT, List.mem_append]
    rcases hreg with hreg | hreg
    · left
      rw [List.mem_map] at hreg ⊢
      obtain ⟨e, he, hex⟩ := hreg
      refine ⟨e, ?_, hex⟩
      rw [eraseKey, List.mem_filter]
      refine ⟨he, ?_⟩
      simp only [Bool.not_eq_true']
      rw [beq_eq_false_iff_ne]
      intro hek
      exact hnp (by
        have : (k, x) ∈ s.pollIntervals := by
          have : e = (k, x) := by
            obtain ⟨e1, e2⟩ := e
            simp only at hek hex
            rw [hek, hex]
          rwa [this] at he
        exact lookupKey_eq_of_mem hndP this)
    · right
      rw [List.mem_map] at hreg ⊢
      obtain ⟨e, he, hex⟩ := hreg
      refine ⟨e, ?_, hex⟩
      rw [eraseKey, List.mem_filter]
      refine ⟨he, ?_⟩
      simp only [Bool.not_eq_true']
      rw [beq_eq_false_iff_ne]
      intro hek
      exact hnt (by
        have : (k, x) ∈ s.timeoutRefs := by
          have : e = (k, x) := by
            obtain ⟨e1, e2⟩ := e
            simp only at hek hex
            rw [hek, hex]
          rwa [this] at he
        exact lookupKey_eq_of_mem hndT this)
  · rw [hP]; exact keysNodup_eraseKey k hndP
  · rw [hT]; exact keysNodup_eraseKey k hndT

theorem pollerInv_startPolling {s : PollerState} (hs : PollerInv s) (k : String) :
    PollerInv (startPolling s k) := by
  have hs1 := pollerInv_stopPolling hs k
  obtain ⟨hlive1, hndP1, hndT1⟩ := hs1
  obtain ⟨hP, hT, _, _⟩ := stopPolling_char s k
  have hfreeP : KeyFree (stopPolling s k).pollIntervals k := hP ▸ keyFree_eraseKey _ _
  have hfreeT : KeyFree (stopPolling s k).timeoutRefs k := hT ▸ keyFree_eraseKey _ _
  rw [startPolling]
  simp only [eraseKey_of_keyFree hfreeP, eraseKey_of_keyFree hfreeT]
  refine ⟨?_, ?_, ?_⟩
  · intro x hx
    rw [RegisteredHandles]
    simp only [List.map_cons, List.mem_append, List.mem_cons] at hx ⊢
    rcases hx with h | h | h
    · exact Or.inl (Or.inl h)
    · exact Or.inr (Or.inl h)
    · rcases List.mem_append.mp (hlive1 x h) with hm | hm
      · exact Or.inl (Or.inr hm)
      · exact Or.inr (Or.inr hm)
  · rw [KeysNodup, List.map_cons, List.nodup_cons]
    refine ⟨?_, hndP1⟩
    rw [List.mem_map]
    rintro ⟨e, he, hek⟩
    exact hfreeP e he hek
  · rw [KeysNodup, List.map_cons, List.nodup_cons]
    refine ⟨?_, hndT1⟩
    rw [List.mem_map]
    rintro ⟨e, he, hek⟩
    exact hfreeT e he hek

theorem mem_foldl_clearTimer (vals : List Nat) :
    ∀ (live : List Nat) (x : Nat),
      x ∈ vals.foldl clearTimer live ↔ x ∈ live ∧ x ∉ vals := by
  induction vals with
  | nil => intro live x; simp
  | cons v vs ih =>
    intro live x
    rw [List.foldl_cons, ih]
    rw [mem_clearTimer]
    simp only [List.mem_cons]
    tauto

/-- After `stopAllPolling` no timer is live, provided every live timer was
registered. -/
theorem stopAllPolling_live_nil {s : PollerState}
    (h : ∀ x ∈ s.live, x ∈ RegisteredHandles s) :
    (stopAllPolling s).live = [] := by
  rw [stopAllPolling]
  rw [List.eq_nil_iff_forall_not_mem]
  intro x hx
  have h1 : ∀ live0 : List Nat,
      s.pollIntervals.foldl (fun acc e => clearTimer acc e.2) live0 =
        (s.pollIntervals.map Prod.snd).foldl clearTimer live0 :=
    fun live0 => (List.foldl_map Prod.snd clearTimer s.pollIntervals live0).symm
  have h2 : ∀ live0 : List Nat,
      s.timeoutRefs.foldl (fun acc e => clearTimer acc e.2) live0 =
        (s.timeoutRefs.map Prod.snd).foldl clearTimer live0 :=
    fun live0 => (List.foldl_map Prod.snd clearTimer s.timeoutRefs live0).symm
  simp only [h1, h2] at hx
  rw [mem_foldl_clearTimer, mem_foldl_clearTimer] at hx
  obtain ⟨⟨hxl, hnp⟩, hnt⟩ := hx
  rcases List.mem_append.mp (h x hxl) with hm | hm
  · exact hnp hm
  · exact hnt hm

theorem pollerInv_stopAllPolling {s : PollerState} (hs : PollerInv s) :
    PollerInv (stopAllPolling s) := by
  have hnil := stopAllPolling_live_nil hs.1
  refine ⟨?_, ?_, ?_⟩
  · intro x hx
    rw [hnil] at hx
    cases hx
  · rw [stopAllPolling]; exact List.nodup_nil
  · rw [stopAllPolling]; exact List.nodup_nil

theorem pollerInv_runPoller (ops : List PollOp) : PollerInv (runPoller ops) := by
  rw [runPoller]
  have h : ∀ (l : List PollOp) (s : PollerState), PollerInv s →
      PollerInv (l.foldl pollStep s) := by
    intro l
    induction l with
    | nil => intro s hs; exact hs
    | cons op l ih =>
      intro s hs
      refine ih (pollStep s op) ?_
      cases op with
      | start k => exact pollerInv_startPolling hs k
      | stop k => exact pollerInv_stopPolling hs k
      | stopAll => exact pollerInv_stopAllPolling hs
  refine h ops initPoller ?_
  refine ⟨?_, List.nodup_nil, List.nodup_nil⟩
  intro x hx
  cases hx

theorem filter_key_eraseKey (m : List (String × Nat)) (k : String) :
    (eraseKey m k).filter (fun e => e.1 == k) = [] := by
  rw [eraseKey, List.filter_filter]
  have : (fun (e : String × Nat) => (e.1 == k) && !(e.1 == k)) = fun _ => false := by
    funext e
    cases h : e.1 == k <;> simp [h]
  rw [this]
  exact List.filter_false m

/-- C9: after any sequence of `startPolling`/`stopPolling`/`stopAllPolling`
calls (i) each map holds at most one registration per key, (ii) every live
timer handle belongs to a current registration (no timer leaks), (iii) two
consecutive `startPolling(k)` calls leave exactly one registered
interval/timeout pair for `k` and both of its handles live, and (iv) a
final `stopAllPolling` leaves zero live timers however many keys were
registered. -/
theorem c9_poller_timer_invariants (ops : List PollOp) (k : String) :
    KeysNodup (runPoller ops).pollIntervals ∧
    KeysNodup (runPoller ops).timeoutRefs ∧
    ((runPoller ops).live.all
      (fun x => List.elem x (RegisteredHandles (runPoller ops)))) = true ∧
    (∃ hi ht,
      (runPoller (ops ++ [.start k, .start k])).pollIntervals.filter
          (fun e => e.1 == k) = [(k, hi)] ∧
      (runPoller (ops ++ [.start k, .start k])).timeoutRefs.filter
          (fun e => e.1 == k) = [(k, ht)] ∧
      hi ∈ (runPoller (ops ++ [.start k, .start k])).live ∧
      ht ∈ (runPoller (ops ++ [.start k, .start k])).live) ∧
    (runPoller (ops ++ [.stopAll])).live = [] := by
  obtain ⟨hlive, hndP, hndT⟩ := pollerInv_runPoller ops
  refine ⟨hndP, hndT, ?_, ?_, ?_⟩
  · rw [List.all_eq_true]
    intro x hx
    exact List.elem_iff.mpr (hlive x hx)
  · have hrun : runPoller (ops ++ [.start k, .start k]) =
        startPolling (startPolling (runPoller ops) k) k := by
      rw [runPoller, List.foldl_append]
      rfl
    set s2 := startPolling (runPoller ops) k with hs2
    refine ⟨(stopPolling s2 k).nextHandle, (stopPolling s2 k).nextHandle + 1, ?_, ?_, ?_, ?_⟩
    · rw [hrun, startPolling]
      rw [List.filter_cons]
      simp only [beq_self_eq_true, if_pos]
      rw [filter_key_eraseKey]
    · rw [hrun, startPolling]
      rw [List.filter_cons]
      simp only [beq_self_eq_true, if_pos]
      rw [filter_key_eraseKey]
    · rw [hrun, startPolling]
      exact List.mem_cons_self _ _
    · rw [hrun, startPolling]
      exact List.mem_cons_of_mem _ (List.mem_cons_self _ _)
  · have hrun : runPoller (ops ++ [.stopAll]) = stopAllPolling (runPoller ops) := by
      rw [runPoller, List.foldl_append]
      rfl
    rw [hrun]
    exact stopAllPolling_live_nil hlive

end EasyMCP
